import Mathlib

/-!
Shallow embedding of the user-record service of `alrobwilloliver/golang-lambda`
(`pkg/user/user.go`) and its request/response boundary (`pkg/handlers/handlers.go`).

Modelling conventions:
* The DynamoDB client (`dynamodbiface.DynamoDBAPI`) is a record of response
  functions, one per API call the service issues (`GetItem`, `PutItem`, `Scan`,
  `DeleteItem`); each returns either the Go error (`Except.error` carrying the
  opaque message) or the call's output, exactly as the Go interface does.
* A DynamoDB attribute map is an association list from attribute names to
  attribute values; an attribute value is either a string value (`S`) or a
  non-string value (`N`), which is enough to make `dynamodbattribute`
  unmarshalling into the all-string `User` struct both succeed and fail.
* Go nil-pointer dereference is modelled with an `Option` layer: a function
  that can panic returns `none` on the panicking execution.  Go's
  short-circuiting `&&` is embedded as `goAnd`, which only forces its right
  conjunct when the left one is `true`.
* `json.Unmarshal(req.Body, &u)` is embedded at the granularity of its
  outcome: a request body either fails structural decoding (`malformed`) or
  decodes to a `User` value (`decoded u`).
-/

/-- The `User` struct of `pkg/user/user.go` (fields `email`, `firstName`,
`lastName` in JSON). -/
structure User where
  Email : String
  FirstName : String
  LastName : String
deriving DecidableEq, Repr

/-- A DynamoDB attribute value, restricted to what the service can meet:
`S` is a string attribute; `N` stands for any non-string attribute (its
payload is the raw representation). -/
inductive AttributeValue where
  | S (s : String)
  | N (n : String)
deriving DecidableEq, Repr

/-- A DynamoDB attribute map (`map[string]*dynamodb.AttributeValue`). -/
def AttrMap : Type := List (String × AttributeValue)

instance : DecidableEq AttrMap := by
  unfold AttrMap
  infer_instance

/-- `dynamodb.GetItemInput`: the `email` key value and the table name. -/
structure GetItemInput where
  key : String
  tableName : String

/-- `dynamodb.GetItemOutput`: the fetched attribute map (empty when the key
is absent). -/
structure GetItemOutput where
  item : AttrMap
deriving DecidableEq

/-- `dynamodb.PutItemInput`. -/
structure PutItemInput where
  item : AttrMap
  tableName : String

/-- `dynamodb.ScanInput`. -/
structure ScanInput where
  tableName : String

/-- `dynamodb.ScanOutput`: the scanned attribute maps in store order. -/
structure ScanOutput where
  items : List AttrMap
deriving DecidableEq

/-- `dynamodb.DeleteItemInput`. -/
structure DeleteItemInput where
  key : String
  tableName : String

/-- The `dynamodbiface.DynamoDBAPI` collaborator, restricted to the four
calls the service issues.  Each component gives the store's response to one
call as a function of that call's input; `Except.error` carries the opaque
store error message. -/
structure DynaClient where
  getItem : GetItemInput → Except String GetItemOutput
  putItem : PutItemInput → Except String Unit
  scan : ScanInput → Except String ScanOutput
  deleteItem : DeleteItemInput → Except String Unit

/-- Outcome of `json.Unmarshal(req.Body, &u)` on a raw request body:
either structural decoding fails, or it yields a `User` value. -/
inductive RequestBody where
  | malformed
  | decoded (u : User)
deriving DecidableEq, Repr

/-- `events.APIGatewayProxyRequest`, restricted to the fields the service
reads: the raw body (embedded by its decode outcome) and the query string
parameters. -/
structure APIGatewayProxyRequest where
  Body : RequestBody
  QueryStringParameters : List (String × String)
deriving DecidableEq, Repr

namespace user

/-- The error-message constants of `pkg/user/user.go`. -/
def ErrorCouldNotDynamoPutItem : String := "could not update record"

def ErrorCouldNotMarshalItem : String := "fail to marshal record"

def ErrorFailedToDeleteRecord : String := "failed to delete record"

def ErrorFailedToFetchRecord : String := "failed to fetch record"

def ErrorFailedToUnmarshalRecord : String := "failed to unmarshal record"

def ErrorInvalidEmail : String := "invalid email"

def ErrorInvalidUserData : String := "invalid user data"

def ErrorUserAlreadyExists : String := "user already exists"

/-- Modelled from the spec: `validators.IsEmailValid` lives in
`pkg/validators`, which is not among the provided source files.  Spec §4.1
describes the check as a standard email-format check: local-part@domain with
at least one dot in the domain and no embedded whitespace. -/
def IsEmailValid (email : String) : Bool :=
  let cs := email.toList
  let lp := cs.takeWhile (fun ch => ch != '@')
  match cs.dropWhile (fun ch => ch != '@') with
  | [] => false
  | _ :: dom =>
    !lp.isEmpty && !dom.isEmpty && !dom.contains '@' && dom.contains '.' &&
      !(cs.any (fun ch => ch == ' ' || ch == '\t' || ch == '\n' || ch == '\r'))

/-- One string field of `dynamodbattribute` unmarshalling into `User`:
an absent attribute leaves the Go zero value `""`; a string attribute fills
the field; a non-string attribute is an unmarshal type error. -/
def unmarshalStringField (m : AttrMap) (key : String) : Except String String :=
  match m.lookup key with
  | none => Except.ok ""
  | some (AttributeValue.S s) => Except.ok s
  | some (AttributeValue.N _) => Except.error "unmarshal type error"

/-- `dynamodbattribute.UnmarshalMap` into the `User` struct. -/
def UnmarshalMap (m : AttrMap) : Except String User :=
  match unmarshalStringField m "email" with
  | Except.error e => Except.error e
  | Except.ok emailVal =>
    match unmarshalStringField m "firstName" with
    | Except.error e => Except.error e
    | Except.ok firstVal =>
      match unmarshalStringField m "lastName" with
      | Except.error e => Except.error e
      | Except.ok lastVal => Except.ok ⟨emailVal, firstVal, lastVal⟩

/-- The attribute map `dynamodbattribute.MarshalMap` builds for a `User`. -/
def userAttrMap (u : User) : AttrMap :=
  [("email", AttributeValue.S u.Email),
   ("firstName", AttributeValue.S u.FirstName),
   ("lastName", AttributeValue.S u.LastName)]

/-- `dynamodbattribute.MarshalMap` on a `User`: marshalling a struct of three
string fields always succeeds, so the `Except` layer is kept only because the
callers match on it (their error branch is unreachable). -/
def MarshalMap (u : User) : Except String AttrMap := Except.ok (userAttrMap u)

/-- `dynamodbattribute.UnmarshalListOfMaps` into `[]User`: each scanned
attribute map is unmarshalled in order. -/
def UnmarshalListOfMaps : List AttrMap → Except String (List User)
  | [] => Except.ok []
  | m :: rest =>
    match UnmarshalMap m with
    | Except.error e => Except.error e
    | Except.ok u =>
      match UnmarshalListOfMaps rest with
      | Except.error e => Except.error e
      | Except.ok us => Except.ok (u :: us)

/-- Go's short-circuiting `&&` under the panic monad (`none` = panic): the
right conjunct is only forced when the left one evaluates to `true`. -/
def goAnd (a : Option Bool) (b : Unit → Option Bool) : Option Bool :=
  match a with
  | none => none
  | some true => b ()
  | some false => some false

/-- Evaluating `existingUser.Email` on a `*User`: dereferencing nil panics
(`none`); otherwise it reads the field. -/
def goDerefEmail : Option User → Option String
  | none => none
  | some u => some u.Email

/-- `user.FetchUser`: `GetItem`, then `UnmarshalMap` into a freshly allocated
(non-nil) `*User`.  The returned `Option User` is the Go pointer: `none` would
be nil, and on success the function always returns `some`. -/
def FetchUser (email : String) (tableName : String) (dynaClient : DynaClient) :
    Except String (Option User) :=
  let input : GetItemInput := ⟨email, tableName⟩
  match dynaClient.getItem input with
  | Except.error _ => Except.error ErrorFailedToFetchRecord
  | Except.ok result =>
    match UnmarshalMap result.item with
    | Except.error _ => Except.error ErrorFailedToUnmarshalRecord
    | Except.ok item => Except.ok (some item)

/-- `user.FetchAllUsers`: `Scan`, then `UnmarshalListOfMaps`. -/
def FetchAllUsers (tableName : String) (dynaClient : DynaClient) :
    Except String (List User) :=
  let input : ScanInput := ⟨tableName⟩
  match dynaClient.scan input with
  | Except.error _ => Except.error ErrorFailedToFetchRecord
  | Except.ok result =>
    match UnmarshalListOfMaps result.items with
    | Except.error _ => Except.error ErrorFailedToUnmarshalRecord
    | Except.ok item => Except.ok item

/-- The condition `existingUser != nil && len(existingUser.Email) != 0` of
`user.CreateUser`, with Go's short-circuit evaluation and the panic that a
nil dereference in the right conjunct would cause. -/
def createExistCond (existingUser : Option User) : Option Bool :=
  goAnd (some existingUser.isSome)
    (fun _ => (goDerefEmail existingUser).map (fun e => e.length != 0))

/-- The condition `existingUser == nil && len(existingUser.Email) == 0` of
`user.UpdateUser`, with Go's short-circuit evaluation and the panic that a
nil dereference in the right conjunct would cause. -/
def updateExistCond (existingUser : Option User) : Option Bool :=
  goAnd (some existingUser.isNone)
    (fun _ => (goDerefEmail existingUser).map (fun e => e.length == 0))

/-- `user.CreateUser`.  The outer `Option` is the panic layer (`none` = the
execution panics); the `Except` inside is the Go `(*User, error)` result. -/
def CreateUser (req : APIGatewayProxyRequest) (tableName : String)
    (dynaClient : DynaClient) : Option (Except String User) :=
  match req.Body with
  | RequestBody.malformed => some (Except.error ErrorInvalidUserData)
  | RequestBody.decoded u =>
    if !IsEmailValid u.Email then some (Except.error ErrorInvalidEmail)
    else
      match FetchUser u.Email tableName dynaClient with
      | Except.error _ => some (Except.error ErrorFailedToFetchRecord)
      | Except.ok existingUser =>
        match createExistCond existingUser with
        | none => none
        | some true => some (Except.error ErrorUserAlreadyExists)
        | some false =>
          match MarshalMap u with
          | Except.error _ => some (Except.error ErrorCouldNotMarshalItem)
          | Except.ok av =>
            match dynaClient.putItem ⟨av, tableName⟩ with
            | Except.error _ => some (Except.error ErrorCouldNotDynamoPutItem)
            | Except.ok _ => some (Except.ok u)

/-- `user.UpdateUser`.  Same layering as `CreateUser`; note that the error of
`FetchUser` is returned unchanged (`return nil, err`) and that no email-format
check is performed. -/
def UpdateUser (req : APIGatewayProxyRequest) (tableName : String)
    (dynaClient : DynaClient) : Option (Except String User) :=
  match req.Body with
  | RequestBody.malformed => some (Except.error ErrorInvalidUserData)
  | RequestBody.decoded u =>
    match FetchUser u.Email tableName dynaClient with
    | Except.error err => some (Except.error err)
    | Except.ok existingUser =>
      match updateExistCond existingUser with
      | none => none
      | some true => some (Except.error ErrorUserAlreadyExists)
      | some false =>
        match MarshalMap u with
        | Except.error _ => some (Except.error ErrorCouldNotMarshalItem)
        | Except.ok av =>
          match dynaClient.putItem ⟨av, tableName⟩ with
          | Except.error _ => some (Except.error ErrorCouldNotDynamoPutItem)
          | Except.ok _ => some (Except.ok u)

/-- `req.QueryStringParameters["email"]`: Go map indexing yields the zero
value `""` when the key is absent. -/
def requestEmail (req : APIGatewayProxyRequest) : String :=
  ((req.QueryStringParameters.lookup "email").getD "")

/-- `user.DeleteUser`: one unconditional `DeleteItem` by email key. -/
def DeleteUser (req : APIGatewayProxyRequest) (tableName : String)
    (dynaClient : DynaClient) : Except String Unit :=
  let email := requestEmail req
  match dynaClient.deleteItem ⟨email, tableName⟩ with
  | Except.error _ => Except.error ErrorFailedToDeleteRecord
  | Except.ok _ => Except.ok ()

end user

namespace http

/-- The `net/http` status constants used by `pkg/handlers/handlers.go`. -/
def StatusOK : Nat := 200

def StatusCreated : Nat := 201

def StatusBadRequest : Nat := 400

def StatusMethodNotAllowed : Nat := 405

def StatusInternalServerError : Nat := 500

end http

/-- The payload handed to `apiResponse`: an `ErrorBody` with the error
message, a `*User`, a `*[]User`, a raw string, or Go `nil`. -/
inductive ResponseBody where
  | errorBody (msg : String)
  | userBody (u : Option User)
  | usersBody (l : List User)
  | textBody (s : String)
  | nilBody
deriving DecidableEq, Repr

/-- `events.APIGatewayProxyResponse`, restricted to what the handlers set:
status code, the fixed content header, and the body (kept as the structured
payload; its JSON serialisation is boundary plumbing). -/
structure APIGatewayProxyResponse where
  StatusCode : Nat
  Headers : List (String × String)
  RespBody : ResponseBody
deriving DecidableEq, Repr

namespace handlers

/-- `handlers.ErrorMethodNotAllowed`. -/
def ErrorMethodNotAllowed : String := "Error Method Not Allowed"

/-- Modelled from the spec: `apiResponse` (in `pkg/handlers`, not among the
provided source files) wraps a status code and a payload into a wire response
whose fixed header signals JSON content (spec §6; the repository's handler
tests show the header key `Application-Type`). -/
def apiResponse (status : Nat) (body : ResponseBody) : APIGatewayProxyResponse :=
  ⟨status, [("Application-Type", "application/json")], body⟩

/-- `handlers.GetUser`: fetch one user when an `email` query parameter is
present, otherwise fetch all. -/
def GetUser (req : APIGatewayProxyRequest) (tableName : String)
    (dynaClient : DynaClient) : APIGatewayProxyResponse :=
  let email := user.requestEmail req
  if email.length > 0 then
    match user.FetchUser email tableName dynaClient with
    | Except.error err =>
      apiResponse http.StatusInternalServerError (ResponseBody.errorBody err)
    | Except.ok result => apiResponse http.StatusOK (ResponseBody.userBody result)
  else
    match user.FetchAllUsers tableName dynaClient with
    | Except.error err =>
      apiResponse http.StatusInternalServerError (ResponseBody.errorBody err)
    | Except.ok result => apiResponse http.StatusOK (ResponseBody.usersBody result)

/-- `handlers.CreateUser`; the panic layer of `user.CreateUser` propagates. -/
def CreateUser (req : APIGatewayProxyRequest) (tableName : String)
    (dynaClient : DynaClient) : Option APIGatewayProxyResponse :=
  match user.CreateUser req tableName dynaClient with
  | none => none
  | some (Except.error err) =>
    some (apiResponse http.StatusInternalServerError (ResponseBody.errorBody err))
  | some (Except.ok newUser) =>
    some (apiResponse http.StatusCreated (ResponseBody.userBody (some newUser)))

/-- `handlers.UpdateUser`; the panic layer of `user.UpdateUser` propagates. -/
def UpdateUser (req : APIGatewayProxyRequest) (tableName : String)
    (dynaClient : DynaClient) : Option APIGatewayProxyResponse :=
  match user.UpdateUser req tableName dynaClient with
  | none => none
  | some (Except.error err) =>
    some (apiResponse http.StatusInternalServerError (ResponseBody.errorBody err))
  | some (Except.ok newUser) =>
    some (apiResponse http.StatusOK (ResponseBody.userBody (some newUser)))

/-- `handlers.DeleteUser`: note the status on the error branch is
`http.StatusBadRequest`, not `http.StatusInternalServerError`. -/
def DeleteUser (req : APIGatewayProxyRequest) (tableName : String)
    (dynaClient : DynaClient) : APIGatewayProxyResponse :=
  match user.DeleteUser req tableName dynaClient with
  | Except.error err =>
    apiResponse http.StatusBadRequest (ResponseBody.errorBody err)
  | Except.ok _ => apiResponse http.StatusOK ResponseBody.nilBody

/-- `handlers.UnhandledMethod`. -/
def UnhandledMethod : APIGatewayProxyResponse :=
  apiResponse http.StatusMethodNotAllowed (ResponseBody.textBody ErrorMethodNotAllowed)

end handlers

deriving instance DecidableEq for Except

/-- The example user of spec §8: `{"email":"a@b.co","firstName":"A","lastName":"B"}`. -/
def exUser : User := ⟨"a@b.co", "A", "B"⟩

/-- The attribute map a stored `exUser` comes back as. -/
def exItem : AttrMap :=
  [("email", AttributeValue.S "a@b.co"),
   ("firstName", AttributeValue.S "A"),
   ("lastName", AttributeValue.S "B")]

/-- A request whose body decodes to `exUser`, with an `email` query parameter. -/
def exReq : APIGatewayProxyRequest :=
  ⟨RequestBody.decoded exUser, [("email", "a@b.co")]⟩

/-- A request whose raw body fails structural decoding. -/
def malReq : APIGatewayProxyRequest := ⟨RequestBody.malformed, [("email", "a@b.co")]⟩

/-- A client whose store is empty and healthy: `GetItem` returns an empty
attribute map, `Scan` returns no items, writes and deletes succeed. -/
def emptyStoreClient : DynaClient :=
  ⟨fun _ => Except.ok ⟨[]⟩, fun _ => Except.ok (),
   fun _ => Except.ok ⟨[]⟩, fun _ => Except.ok ()⟩

/-- A healthy client whose `GetItem` finds `exItem`. -/
def populatedClient : DynaClient :=
  ⟨fun _ => Except.ok ⟨exItem⟩, fun _ => Except.ok (),
   fun _ => Except.ok ⟨[exItem]⟩, fun _ => Except.ok ()⟩

/-- A client whose every store call fails. -/
def failingClient : DynaClient :=
  ⟨fun _ => Except.error "get error", fun _ => Except.error "put error",
   fun _ => Except.error "scan error", fun _ => Except.error "delete error"⟩

/-- Unfolding equation for `user.FetchUser`. -/
theorem fetchUser_eq (e t : String) (c : DynaClient) :
    user.FetchUser e t c =
      match c.getItem ⟨e, t⟩ with
      | Except.error _ => Except.error user.ErrorFailedToFetchRecord
      | Except.ok result =>
        match user.UnmarshalMap result.item with
        | Except.error _ => Except.error user.ErrorFailedToUnmarshalRecord
        | Except.ok item => Except.ok (some item) := rfl

/-- On success `user.FetchUser` always returns a non-nil pointer. -/
theorem fetchUser_ok_some {e t : String} {c : DynaClient} {ex : Option User}
    (h : user.FetchUser e t c = Except.ok ex) : ∃ w, ex = some w := by
  rw [fetchUser_eq] at h
  cases hg : c.getItem ⟨e, t⟩ with
  | error msg => rw [hg] at h; simp at h
  | ok result =>
    rw [hg] at h
    dsimp only at h
    cases hu : user.UnmarshalMap result.item with
    | error msg => rw [hu] at h; simp at h
    | ok item =>
      rw [hu] at h
      simp at h
      exact ⟨item, h.symm⟩

/-- The only error messages `user.FetchUser` can produce. -/
theorem fetchUser_error_cases {e t s : String} {c : DynaClient}
    (h : user.FetchUser e t c = Except.error s) :
    s = user.ErrorFailedToFetchRecord ∨ s = user.ErrorFailedToUnmarshalRecord := by
  rw [fetchUser_eq] at h
  cases hg : c.getItem ⟨e, t⟩ with
  | error msg => rw [hg] at h; simp at h; exact Or.inl h.symm
  | ok result =>
    rw [hg] at h
    dsimp only at h
    cases hu : user.UnmarshalMap result.item with
    | error msg => rw [hu] at h; simp at h; exact Or.inr h.symm
    | ok item => rw [hu] at h; simp at h

/-- After a decoded body and a successful existence fetch, `user.UpdateUser`
is exactly the persist-and-return flow. -/
theorem updateUser_decoded_fetch_ok {req : APIGatewayProxyRequest} {t : String}
    {c : DynaClient} {u : User} {ex : Option User}
    (hb : req.Body = RequestBody.decoded u)
    (hf : user.FetchUser u.Email t c = Except.ok ex) :
    user.UpdateUser req t c =
      some (match c.putItem ⟨user.userAttrMap u, t⟩ with
            | Except.error _ => Except.error user.ErrorCouldNotDynamoPutItem
            | Except.ok _ => Except.ok u) := by
  obtain ⟨w, rfl⟩ := fetchUser_ok_some hf
  cases hp : c.putItem ⟨user.userAttrMap u, t⟩ <;>
    simp [user.UpdateUser, hb, hf, user.updateExistCond, user.goAnd,
      user.goDerefEmail, user.MarshalMap, hp]

/-- After a decoded body, a passing email check and a successful existence
fetch, `user.CreateUser` blocks exactly on a fetched non-empty email and
otherwise runs the persist-and-return flow. -/
theorem createUser_decoded_fetch_ok {req : APIGatewayProxyRequest} {t : String}
    {c : DynaClient} {u w : User}
    (hb : req.Body = RequestBody.decoded u)
    (hv : user.IsEmailValid u.Email = true)
    (hf : user.FetchUser u.Email t c = Except.ok (some w)) :
    user.CreateUser req t c =
      if w.Email.length != 0 then some (Except.error user.ErrorUserAlreadyExists)
      else
        some (match c.putItem ⟨user.userAttrMap u, t⟩ with
              | Except.error _ => Except.error user.ErrorCouldNotDynamoPutItem
              | Except.ok _ => Except.ok u) := by
  cases hE : (w.Email.length != 0) with
  | true =>
    simp [user.CreateUser, hb, hv, hf, user.createExistCond, user.goAnd,
      user.goDerefEmail, hE]
  | false =>
    cases hp : c.putItem ⟨user.userAttrMap u, t⟩ <;>
      simp [user.CreateUser, hb, hv, hf, user.createExistCond, user.goAnd,
        user.goDerefEmail, user.MarshalMap, hE, hp]

/-- `user.UpdateUser` never panics. -/
theorem updateUser_ne_none (req : APIGatewayProxyRequest) (t : String)
    (c : DynaClient) : user.UpdateUser req t c ≠ none := by
  cases hb : req.Body with
  | malformed => simp [user.UpdateUser, hb]
  | decoded u =>
    cases hf : user.FetchUser u.Email t c with
    | error e => simp [user.UpdateUser, hb, hf]
    | ok ex =>
      rw [updateUser_decoded_fetch_ok hb hf]
      simp

/-- `w.Email.length != 0` says exactly that the fetched email is non-empty. -/
theorem string_length_bne_zero_iff (s : String) : (s.length != 0) = true ↔ s ≠ "" := by
  rw [bne_iff_ne]
  constructor
  · intro h hs; subst hs; exact h rfl
  · intro h hl
    apply h
    cases s with
    | mk data =>
      cases data with
      | nil => rfl
      | cons a as => simp [String.length] at hl

/-- The possible error messages of `user.UpdateUser`. -/
theorem updateUser_error_mem {req : APIGatewayProxyRequest} {t : String}
    {c : DynaClient} {s : String}
    (h : user.UpdateUser req t c = some (Except.error s)) :
    s = user.ErrorInvalidUserData ∨ s = user.ErrorFailedToFetchRecord ∨
      s = user.ErrorFailedToUnmarshalRecord ∨ s = user.ErrorUserAlreadyExists ∨
      s = user.ErrorCouldNotMarshalItem ∨ s = user.ErrorCouldNotDynamoPutItem := by
  cases hb : req.Body with
  | malformed =>
    simp [user.UpdateUser, hb] at h
    exact Or.inl h.symm
  | decoded u =>
    cases hf : user.FetchUser u.Email t c with
    | error e =>
      simp [user.UpdateUser, hb, hf] at h
      rcases fetchUser_error_cases hf with he | he <;> subst he <;> subst h <;> simp
    | ok ex =>
      rw [updateUser_decoded_fetch_ok hb hf] at h
      cases hp : c.putItem ⟨user.userAttrMap u, t⟩ <;> rw [hp] at h <;> simp at h
      subst h
      simp

/-- Index-wise content of a successful `user.UnmarshalListOfMaps`. -/
theorem unmarshalListOfMaps_spec :
    ∀ {items : List AttrMap} {users : List User},
      user.UnmarshalListOfMaps items = Except.ok users →
      users.length = items.length ∧
        ∀ i (h1 : i < items.length) (h2 : i < users.length),
          user.UnmarshalMap (items.get ⟨i, h1⟩) = Except.ok (users.get ⟨i, h2⟩) := by
  intro items
  induction items with
  | nil =>
    intro users h
    simp [user.UnmarshalListOfMaps] at h
    subst h
    exact ⟨rfl, fun i h1 _ => absurd h1 (by simp)⟩
  | cons m rest ih =>
    intro users h
    rw [show user.UnmarshalListOfMaps (m :: rest) =
          (match user.UnmarshalMap m with
           | Except.error e => Except.error e
           | Except.ok u =>
             match user.UnmarshalListOfMaps rest with
             | Except.error e => Except.error e
             | Except.ok us => Except.ok (u :: us)) from rfl] at h
    cases hm : user.UnmarshalMap m with
    | error e => rw [hm] at h; simp at h
    | ok u0 =>
      rw [hm] at h
      cases hr : user.UnmarshalListOfMaps rest with
      | error e => rw [hr] at h; simp at h
      | ok us =>
        rw [hr] at h
        simp at h
        subst h
        obtain ⟨hlen, hget⟩ := ih hr
        refine ⟨by simp [hlen], ?_⟩
        intro i h1 h2
        cases i with
        | zero => simpa using hm
        | succ j =>
          simpa using hget j (by simpa using h1) (by simpa using h2)

/-- C1: for every update request whose body decodes successfully and whose
`FetchUser` existence check returns without a store error, `user.UpdateUser`
proceeds to persist the parsed record and return it — its result is exactly
the persist outcome — and it never fails with the existence-related error
`ErrorUserAlreadyExists`, whether the fetched record is empty or populated. -/
theorem C1_update_never_blocked_by_existence
    (req : APIGatewayProxyRequest) (t : String) (c : DynaClient) (u : User)
    (ex : Option User) (hb : req.Body = RequestBody.decoded u)
    (hf : user.FetchUser u.Email t c = Except.ok ex) :
    user.UpdateUser req t c =
        some (match c.putItem ⟨user.userAttrMap u, t⟩ with
              | Except.error _ => Except.error user.ErrorCouldNotDynamoPutItem
              | Except.ok _ => Except.ok u) ∧
      user.UpdateUser req t c ≠ some (Except.error user.ErrorUserAlreadyExists) := by
  have h := updateUser_decoded_fetch_ok hb hf
  refine ⟨h, ?_⟩
  rw [h]
  cases hp : c.putItem ⟨user.userAttrMap u, t⟩ with
  | error e =>
    simp [user.ErrorCouldNotDynamoPutItem, user.ErrorUserAlreadyExists]
  | ok x => simp

/-- Witness for C1: a populated store record and a decoded body. -/
theorem C1_witness :
    user.UpdateUser exReq "t" populatedClient = some (Except.ok exUser) ∧
      user.UpdateUser exReq "t" populatedClient ≠
        some (Except.error user.ErrorUserAlreadyExists) := by
  have h := C1_update_never_blocked_by_existence exReq "t" populatedClient exUser
    (some exUser) rfl (by decide)
  exact ⟨h.1, h.2⟩

/-- C10: the nil-dereference risk in Update's existence check is unreachable:
whenever `user.FetchUser` returns without error it returns a non-nil pointer,
so the short-circuiting conjunction in `user.UpdateUser` never dereferences a
nil record and `user.UpdateUser` never panics (never returns `none`). -/
theorem C10_update_nil_deref_unreachable :
    (∀ (e t : String) (c : DynaClient) (ex : Option User),
        user.FetchUser e t c = Except.ok ex → ex.isSome = true) ∧
      ∀ (req : APIGatewayProxyRequest) (t : String) (c : DynaClient),
        user.UpdateUser req t c ≠ none := by
  constructor
  · intro e t c ex h
    obtain ⟨w, rfl⟩ := fetchUser_ok_some h
    rfl
  · exact updateUser_ne_none

/-- Witness for C10 at concrete inputs. -/
theorem C10_witness :
    (some exUser).isSome = true ∧
      user.UpdateUser exReq "t" populatedClient ≠ none :=
  ⟨C10_update_nil_deref_unreachable.1 "a@b.co" "t" populatedClient (some exUser)
      (by decide),
    C10_update_nil_deref_unreachable.2 exReq "t" populatedClient⟩

/-- C5: for every email key, a successful get that returns an empty attribute
map makes `user.FetchUser` return, without error, a record whose three fields
are all empty strings, and a store-level get failure is returned as
`ErrorFailedToFetchRecord`. -/
theorem C5_fetchone_empty_map_and_store_error (email t : String) (c : DynaClient) :
    (c.getItem ⟨email, t⟩ = Except.ok ⟨[]⟩ →
        user.FetchUser email t c = Except.ok (some ⟨"", "", ""⟩)) ∧
      ∀ msg, c.getItem ⟨email, t⟩ = Except.error msg →
        user.FetchUser email t c = Except.error user.ErrorFailedToFetchRecord := by
  constructor
  · intro hg
    rw [fetchUser_eq, hg]
    rfl
  · intro msg hg
    rw [fetchUser_eq, hg]

/-- Witness for C5 at concrete clients. -/
theorem C5_witness :
    user.FetchUser "a@b.co" "t" emptyStoreClient = Except.ok (some ⟨"", "", ""⟩) ∧
      user.FetchUser "a@b.co" "t" failingClient =
        Except.error user.ErrorFailedToFetchRecord :=
  ⟨(C5_fetchone_empty_map_and_store_error "a@b.co" "t" emptyStoreClient).1 rfl,
    (C5_fetchone_empty_map_and_store_error "a@b.co" "t" failingClient).2
      "get error" rfl⟩

/-- C8: `user.DeleteUser` issues one unconditional delete by the request's
email key: it succeeds exactly when the store delete succeeds, fails with
`ErrorFailedToDeleteRecord` exactly when the store delete fails, and its
result depends on nothing but the client's delete operation (no prior
existence check via get/scan). -/
theorem C8_delete_unconditional
    (req : APIGatewayProxyRequest) (t : String) (c c2 : DynaClient) :
    (∀ msg, c.deleteItem ⟨user.requestEmail req, t⟩ = Except.error msg →
        user.DeleteUser req t c = Except.error user.ErrorFailedToDeleteRecord) ∧
      (∀ x, c.deleteItem ⟨user.requestEmail req, t⟩ = Except.ok x →
        user.DeleteUser req t c = Except.ok ()) ∧
      (c.deleteItem = c2.deleteItem →
        user.DeleteUser req t c = user.DeleteUser req t c2) := by
  refine ⟨fun msg hd => ?_, fun x hd => ?_, fun hdc => ?_⟩
  · simp [user.DeleteUser, hd]
  · simp [user.DeleteUser, hd]
  · simp [user.DeleteUser, hdc]

/-- Witness for C8: a failing delete, a succeeding delete on an empty store,
and two clients agreeing on delete but differing elsewhere. -/
theorem C8_witness :
    user.DeleteUser exReq "t" failingClient =
        Except.error user.ErrorFailedToDeleteRecord ∧
      user.DeleteUser exReq "t" emptyStoreClient = Except.ok () ∧
      user.DeleteUser exReq "t" emptyStoreClient =
        user.DeleteUser exReq "t" populatedClient :=
  ⟨(C8_delete_unconditional exReq "t" failingClient failingClient).1
      "delete error" rfl,
    (C8_delete_unconditional exReq "t" emptyStoreClient emptyStoreClient).2.1
      () rfl,
    (C8_delete_unconditional exReq "t" emptyStoreClient populatedClient).2.2 rfl⟩

/-- C2: for every create request whose body decodes and whose email passes
the format check, `user.CreateUser` fails with `ErrorUserAlreadyExists`
exactly when the existence fetch succeeds with a record whose email field is
a non-empty string; a fetched record with empty email does not block the
create, which proceeds to the persist flow. -/
theorem C2_create_duplicate_check
    (req : APIGatewayProxyRequest) (t : String) (c : DynaClient) (u w : User)
    (hb : req.Body = RequestBody.decoded u)
    (hv : user.IsEmailValid u.Email = true)
    (hf : user.FetchUser u.Email t c = Except.ok (some w)) :
    (user.CreateUser req t c = some (Except.error user.ErrorUserAlreadyExists) ↔
        w.Email ≠ "") ∧
      (w.Email = "" →
        user.CreateUser req t c =
          some (match c.putItem ⟨user.userAttrMap u, t⟩ with
                | Except.error _ => Except.error user.ErrorCouldNotDynamoPutItem
                | Except.ok _ => Except.ok u)) := by
  have h := createUser_decoded_fetch_ok hb hv hf
  by_cases hw : w.Email = ""
  · have hE : (w.Email.length != 0) = false := by
      rw [hw]; rfl
    rw [hE] at h
    simp only [if_neg Bool.false_ne_true] at h
    refine ⟨?_, fun _ => h⟩
    rw [h]
    constructor
    · intro hcontra
      exfalso
      cases hp : c.putItem ⟨user.userAttrMap u, t⟩ <;> rw [hp] at hcontra <;>
        simp [user.ErrorCouldNotDynamoPutItem, user.ErrorUserAlreadyExists] at hcontra
    · intro hne; exact absurd hw hne
  · have hE : (w.Email.length != 0) = true := (string_length_bne_zero_iff _).2 hw
    rw [hE, if_pos rfl] at h
    exact ⟨⟨fun _ => hw, fun _ => h⟩, fun hw0 => absurd hw0 hw⟩

/-- Witness for C2: a populated record blocks, an empty record lets the
create proceed. -/
theorem C2_witness :
    (user.CreateUser exReq "t" populatedClient =
        some (Except.error user.ErrorUserAlreadyExists) ↔
      exUser.Email ≠ "") ∧
      user.CreateUser exReq "t" emptyStoreClient = some (Except.ok exUser) := by
  refine ⟨(C2_create_duplicate_check exReq "t" populatedClient exUser exUser rfl
      (by decide) (by decide)).1, ?_⟩
  have h := (C2_create_duplicate_check exReq "t" emptyStoreClient exUser
      ⟨"", "", ""⟩ rfl (by decide) (by decide)).2 rfl
  exact h

/-- C3: every raw body that fails structural decoding makes both Create and
Update fail with `ErrorInvalidUserData`; a decodable body whose email fails
the format check makes Create fail with `ErrorInvalidEmail`, while Update
performs no email-format check at all and can never return that error. -/
theorem C3_parse_and_email_validation :
    (∀ (req : APIGatewayProxyRequest) (t : String) (c : DynaClient),
        req.Body = RequestBody.malformed →
          user.CreateUser req t c = some (Except.error user.ErrorInvalidUserData) ∧
            user.UpdateUser req t c = some (Except.error user.ErrorInvalidUserData)) ∧
      (∀ (req : APIGatewayProxyRequest) (t : String) (c : DynaClient) (u : User),
          req.Body = RequestBody.decoded u → user.IsEmailValid u.Email = false →
            user.CreateUser req t c = some (Except.error user.ErrorInvalidEmail)) ∧
      ∀ (req : APIGatewayProxyRequest) (t : String) (c : DynaClient),
        user.UpdateUser req t c ≠ some (Except.error user.ErrorInvalidEmail) := by
  refine ⟨fun req t c hb => ?_, fun req t c u hb hv => ?_, fun req t c hcontra => ?_⟩
  · exact ⟨by simp [user.CreateUser, hb], by simp [user.UpdateUser, hb]⟩
  · simp [user.CreateUser, hb, hv]
  · rcases updateUser_error_mem hcontra with h | h | h | h | h | h <;>
      simp [user.ErrorInvalidUserData, user.ErrorFailedToFetchRecord,
        user.ErrorFailedToUnmarshalRecord, user.ErrorUserAlreadyExists,
        user.ErrorCouldNotMarshalItem, user.ErrorCouldNotDynamoPutItem,
        user.ErrorInvalidEmail] at h

/-- Witness for C3 at a malformed body and a malformed email. -/
theorem C3_witness :
    (user.CreateUser malReq "t" emptyStoreClient =
        some (Except.error user.ErrorInvalidUserData) ∧
      user.UpdateUser malReq "t" emptyStoreClient =
        some (Except.error user.ErrorInvalidUserData)) ∧
      user.CreateUser ⟨RequestBody.decoded ⟨"bad", "x", "y"⟩, []⟩ "t"
          emptyStoreClient = some (Except.error user.ErrorInvalidEmail) ∧
      user.UpdateUser exReq "t" populatedClient ≠
        some (Except.error user.ErrorInvalidEmail) :=
  ⟨C3_parse_and_email_validation.1 malReq "t" emptyStoreClient rfl,
    C3_parse_and_email_validation.2.1 ⟨RequestBody.decoded ⟨"bad", "x", "y"⟩, []⟩
      "t" emptyStoreClient ⟨"bad", "x", "y"⟩ rfl (by decide),
    C3_parse_and_email_validation.2.2 exReq "t" populatedClient⟩

/-- C4: when the existence fetch fails, `user.CreateUser` replaces the error
with the fixed `ErrorFailedToFetchRecord` (whatever `FetchUser` reported),
whereas `user.UpdateUser` returns the error value produced by `FetchUser`
unchanged, not re-wrapped; in particular a failing get-by-key surfaces as
`ErrorFailedToFetchRecord` from both. -/
theorem C4_existence_check_error_asymmetry
    (req : APIGatewayProxyRequest) (t : String) (c : DynaClient) (u : User)
    (hb : req.Body = RequestBody.decoded u)
    (hv : user.IsEmailValid u.Email = true) :
    (∀ msg, c.getItem ⟨u.Email, t⟩ = Except.error msg →
        user.FetchUser u.Email t c = Except.error user.ErrorFailedToFetchRecord) ∧
      (∀ e, user.FetchUser u.Email t c = Except.error e →
        user.CreateUser req t c =
          some (Except.error user.ErrorFailedToFetchRecord)) ∧
      ∀ e, user.FetchUser u.Email t c = Except.error e →
        user.UpdateUser req t c = some (Except.error e) := by
  refine ⟨fun msg hg => ?_, fun e hf => ?_, fun e hf => ?_⟩
  · rw [fetchUser_eq, hg]
  · simp [user.CreateUser, hb, hv, hf]
  · simp [user.UpdateUser, hb, hf]

/-- Witness for C4 at a client whose get fails. -/
theorem C4_witness :
    user.FetchUser "a@b.co" "t" failingClient =
        Except.error user.ErrorFailedToFetchRecord ∧
      user.CreateUser exReq "t" failingClient =
        some (Except.error user.ErrorFailedToFetchRecord) ∧
      user.UpdateUser exReq "t" failingClient =
        some (Except.error user.ErrorFailedToFetchRecord) := by
  have h := C4_existence_check_error_asymmetry exReq "t" failingClient exUser rfl
    (by decide)
  exact ⟨h.1 "get error" rfl, h.2.1 user.ErrorFailedToFetchRecord (by decide),
    h.2.2 user.ErrorFailedToFetchRecord (by decide)⟩

/-- C6: with a decodable body, a valid email, an existence fetch returning an
empty record, and a successful store write, `user.CreateUser` succeeds and
returns exactly the record parsed from the request body, all three fields
verbatim; the returned value is the parsed record itself, so the store is
not re-read after the write. -/
theorem C6_create_success_verbatim
    (req : APIGatewayProxyRequest) (t : String) (c : DynaClient) (u w : User)
    (hb : req.Body = RequestBody.decoded u)
    (hv : user.IsEmailValid u.Email = true)
    (hf : user.FetchUser u.Email t c = Except.ok (some w)) (hw : w.Email = "")
    (hp : c.putItem ⟨user.userAttrMap u, t⟩ = Except.ok ()) :
    user.CreateUser req t c = some (Except.ok u) := by
  have h := createUser_decoded_fetch_ok hb hv hf
  have hE : (w.Email.length != 0) = false := by rw [hw]; rfl
  rw [hE] at h
  simp only [if_neg Bool.false_ne_true] at h
  rw [h, hp]

/-- Witness for C6: the spec §8 example on an empty store. -/
theorem C6_witness :
    user.CreateUser exReq "t" emptyStoreClient = some (Except.ok exUser) :=
  C6_create_success_verbatim exReq "t" emptyStoreClient exUser ⟨"", "", ""⟩ rfl
    (by decide) (by decide) rfl rfl

/-- C7: a store-level scan failure makes `user.FetchAllUsers` fail with
`ErrorFailedToFetchRecord`; a scan returning zero items yields the empty list
and no error; and a successful scan whose items unmarshal yields exactly one
record per scanned item, preserving the store's order and every field value
(each returned record is the unmarshalling of the item at the same index). -/
theorem C7_fetchall_order_preserving (t : String) (c : DynaClient) :
    (∀ msg, c.scan ⟨t⟩ = Except.error msg →
        user.FetchAllUsers t c = Except.error user.ErrorFailedToFetchRecord) ∧
      (c.scan ⟨t⟩ = Except.ok ⟨[]⟩ → user.FetchAllUsers t c = Except.ok []) ∧
      ∀ items users, c.scan ⟨t⟩ = Except.ok ⟨items⟩ →
        user.UnmarshalListOfMaps items = Except.ok users →
        user.FetchAllUsers t c = Except.ok users ∧
          users.length = items.length ∧
          ∀ i (h1 : i < items.length) (h2 : i < users.length),
            user.UnmarshalMap (items.get ⟨i, h1⟩) = Except.ok (users.get ⟨i, h2⟩) := by
  refine ⟨fun msg hs => ?_, fun hs => ?_, fun items users hs hu => ?_⟩
  · simp [user.FetchAllUsers, hs]
  · simp [user.FetchAllUsers, hs, user.UnmarshalListOfMaps]
  · have hspec := unmarshalListOfMaps_spec hu
    exact ⟨by simp [user.FetchAllUsers, hs, hu], hspec.1, hspec.2⟩

/-- Witness for C7: a failing scan, an empty scan, and a populated scan. -/
theorem C7_witness :
    user.FetchAllUsers "t" failingClient =
        Except.error user.ErrorFailedToFetchRecord ∧
      user.FetchAllUsers "t" emptyStoreClient = Except.ok [] ∧
      user.FetchAllUsers "t" populatedClient = Except.ok [exUser] := by
  refine ⟨(C7_fetchall_order_preserving "t" failingClient).1 "scan error" rfl,
    (C7_fetchall_order_preserving "t" emptyStoreClient).2.1 rfl, ?_⟩
  exact ((C7_fetchall_order_preserving "t" populatedClient).2.2 [exItem] [exUser]
    rfl (by decide)).1

/-- C9 counterexample: at a concrete client whose store delete fails, the
service error is `ErrorFailedToDeleteRecord` but `handlers.DeleteUser`
surfaces wire status 400 (`http.StatusBadRequest`), not 500 — refuting the
claim that every taxonomy error is mapped to status 500. -/
theorem C9_counterexample :
    user.DeleteUser exReq "t" failingClient =
        Except.error user.ErrorFailedToDeleteRecord ∧
      (handlers.DeleteUser exReq "t" failingClient).StatusCode = 400 ∧
      (handlers.DeleteUser exReq "t" failingClient).StatusCode ≠ 500 :=
  ⟨by decide, by decide, by decide⟩

/-- C9 (amended): after the service returns, the boundary maps a service
error from Create, Update and both Get branches to wire status 500, but a
Delete error — in particular `ErrorFailedToDeleteRecord` — is surfaced with
status 400 (`http.StatusBadRequest` in `handlers.DeleteUser`). -/
theorem C9_boundary_status_mapping :
    (∀ (req : APIGatewayProxyRequest) (t : String) (c : DynaClient) (e : String),
        user.CreateUser req t c = some (Except.error e) →
          handlers.CreateUser req t c =
            some (handlers.apiResponse http.StatusInternalServerError
              (ResponseBody.errorBody e))) ∧
      (∀ (req : APIGatewayProxyRequest) (t : String) (c : DynaClient) (e : String),
          user.UpdateUser req t c = some (Except.error e) →
            handlers.UpdateUser req t c =
              some (handlers.apiResponse http.StatusInternalServerError
                (ResponseBody.errorBody e))) ∧
      (∀ (req : APIGatewayProxyRequest) (t : String) (c : DynaClient) (e : String),
          (user.requestEmail req).length > 0 →
            user.FetchUser (user.requestEmail req) t c = Except.error e →
              handlers.GetUser req t c =
                handlers.apiResponse http.StatusInternalServerError
                  (ResponseBody.errorBody e)) ∧
      (∀ (req : APIGatewayProxyRequest) (t : String) (c : DynaClient) (e : String),
          ¬(user.requestEmail req).length > 0 →
            user.FetchAllUsers t c = Except.error e →
              handlers.GetUser req t c =
                handlers.apiResponse http.StatusInternalServerError
                  (ResponseBody.errorBody e)) ∧
      ∀ (req : APIGatewayProxyRequest) (t : String) (c : DynaClient) (e : String),
        user.DeleteUser req t c = Except.error e →
          handlers.DeleteUser req t c =
            handlers.apiResponse http.StatusBadRequest
              (ResponseBody.errorBody e) := by
  refine ⟨fun req t c e h => ?_, fun req t c e h => ?_, fun req t c e hq h => ?_,
    fun req t c e hq h => ?_, fun req t c e h => ?_⟩
  · simp [handlers.CreateUser, h]
  · simp [handlers.UpdateUser, h]
  · simp [handlers.GetUser, hq, h]
  · simp [handlers.GetUser, hq, h]
  · simp [handlers.DeleteUser, h]

/-- Witness for C9 (amended) at concrete requests and clients. -/
theorem C9_witness :
    handlers.CreateUser malReq "t" emptyStoreClient =
        some (handlers.apiResponse http.StatusInternalServerError
          (ResponseBody.errorBody user.ErrorInvalidUserData)) ∧
      handlers.DeleteUser exReq "t" failingClient =
        handlers.apiResponse http.StatusBadRequest
          (ResponseBody.errorBody user.ErrorFailedToDeleteRecord) :=
  ⟨C9_boundary_status_mapping.1 malReq "t" emptyStoreClient
      user.ErrorInvalidUserData (by decide),
    C9_boundary_status_mapping.2.2.2.2 exReq "t" failingClient
      user.ErrorFailedToDeleteRecord (by decide)⟩
